import Mathlib

/-!
Verification of the AudioConnector session protocol engine.

This file gives a shallow embedding of the per-connection Session class
(websocket/server.ts companion, the Session source file) and proves the
behavioural properties of its message sequencing, capture-mode arbitration,
outbound audio chunking, turn handling and shutdown path.

Modelling conventions:
- Stateful methods become functions Session -> Session x List Effect, where
  the effect list records, in order, the externally observable actions the
  method performs (websocket sends, handler dispatch, capture-engine
  creation and feeding, bot-gateway invocation).
- The ASRService / DTMFService classes and the MessageHandlerRegistry are
  collaborators of this repository whose sources are not provided; the parts
  of their behaviour the Session reads are modelled from the spec (see the
  doc comments on EngineState and specRegistry).
- JavaScript truthiness of the optional BotResponse fields is made explicit
  by the truthyStr / truthyB helpers (an empty string is falsy, a Uint8Array
  object is always truthy, an absent boolean is falsy).
-/

namespace AudioConnector

/-- Modelled from the spec: the capture engines (ASRService, DTMFService) are
external collaborators whose sources are not under src/; the spec gives each
a state machine Idle -> Capturing -> Complete, read by the Session through
getState(). The Session stores its current view of that state. -/
inductive EngineState
  | Idle
  | Capturing
  | Complete
deriving DecidableEq

/-- Parameters of an outbound envelope, by message type (protocol/message.ts
shapes as used by the Session source). -/
inductive MsgParams
  | disconnect (reason : String) (info : String) (outputVariables : List (String × String))
  | event (entityType : String) (disposition : Option String) (eventText : Option String)
      (confidence : Option Nat)
  | closedParams
deriving DecidableEq

/-- An outbound server envelope as built by Session.createMessage. -/
structure ServerMsg where
  id : String
  version : String
  seq : Nat
  clientseq : Nat
  type : String
  parameters : MsgParams
deriving DecidableEq

/-- The fields of an inbound client envelope that Session.processTextMessage
reads after JSON.parse. -/
structure ClientEnvelope where
  id : String
  seq : Nat
  serverseq : Nat
  type : String
deriving DecidableEq

/-- A BotResponse as produced by the bot gateway (bot-service.ts): disposition
and text are set by the constructor, confidence / audioBytes / endSession are
optional. Audio bytes are modelled as a list of byte values; confidence is
carried opaquely (the Session never computes with it). -/
structure BotResponse where
  disposition : String
  text : Option String
  confidence : Option Nat
  audioBytes : Option (List Nat)
  endSession : Option Bool
deriving DecidableEq

/-- JavaScript truthiness of an optional string: absent and empty are falsy. -/
def truthyStr : Option String → Bool
  | some t => !t.isEmpty
  | none => false

/-- JavaScript truthiness of an optional boolean: absent is falsy. -/
def truthyB : Option Bool → Bool
  | some b => b
  | none => false

/-- One externally observable action of the Session. -/
inductive Effect
  | sendText (m : ServerMsg)
  | sendBinary (bytes : List Nat)
  | wsCloseAttempt
  | dispatch (msgType : String)
  | createASR
  | createDTMF
  | feedASR (data : List Nat)
  | feedDTMF (digit : String)
  | callBot (text : String)
deriving DecidableEq

/-- The mutable state of one Session instance (Session class fields). The
asrService / dtmfService fields hold the Session's view of the engine state
(none models a null reference). -/
structure Session where
  disconnecting : Bool
  closed : Bool
  asrService : Option EngineState
  dtmfService : Option EngineState
  clientSessionId : String
  lastServerSequenceNumber : Nat
  lastClientSequenceNumber : Nat
  selectedBot : Bool
  isCapturingDTMF : Bool
  isAudioPlaying : Bool
deriving DecidableEq

/-- Session.MAXIMUM_BINARY_MESSAGE_SIZE. -/
def MAXIMUM_BINARY_MESSAGE_SIZE : Nat := 64000

/-- Session.close: if already closed do nothing; otherwise attempt the
transport close (any exception is swallowed: the result does not depend on
wsCloseThrows and the function always returns normally) and set the flag. -/
def Session.close (s : Session) (_wsCloseThrows : Bool) : Session × List Effect :=
  if s.closed then (s, [])
  else ({ s with closed := true }, [Effect.wsCloseAttempt])

/-- Session.createMessage: stamps an outbound envelope with the session id,
protocol version 2, the incremented server sequence number and the current
client sequence number, and returns the updated session with the message. -/
def Session.createMessage (s : Session) (msgType : String) (parameters : MsgParams) :
    Session × ServerMsg :=
  let s2 := { s with lastServerSequenceNumber := s.lastServerSequenceNumber + 1 }
  (s2, { id := s.clientSessionId
         version := "2"
         seq := s2.lastServerSequenceNumber
         clientseq := s.lastClientSequenceNumber
         type := msgType
         parameters := parameters })

/-- Session.send: serializes the envelope onto the websocket. -/
def Session.send (s : Session) (m : ServerMsg) : Session × List Effect :=
  (s, [Effect.sendText m])

/-- The while loop of Session.sendAudio: starting at currentPosition, slice
off MAXIMUM_BINARY_MESSAGE_SIZE bytes at a time until the end of the array. -/
def chunkLoop (bytes : List Nat) (currentPosition : Nat) : List (List Nat) :=
  if _h : currentPosition < bytes.length then
    ((bytes.drop currentPosition).take MAXIMUM_BINARY_MESSAGE_SIZE)
      :: chunkLoop bytes (currentPosition + MAXIMUM_BINARY_MESSAGE_SIZE)
  else []
termination_by bytes.length - currentPosition
decreasing_by
  simp only [MAXIMUM_BINARY_MESSAGE_SIZE]
  omega

/-- The list of binary frames Session.sendAudio produces for a payload. -/
def sendAudioChunks (bytes : List Nat) : List (List Nat) :=
  if bytes.length ≤ MAXIMUM_BINARY_MESSAGE_SIZE then [bytes]
  else chunkLoop bytes 0

/-- Session.sendAudio: a payload within the frame ceiling goes out as one
binary frame; a larger payload is sent as consecutive maximal slices. -/
def Session.sendAudio (s : Session) (bytes : List Nat) : Session × List Effect :=
  if bytes.length ≤ MAXIMUM_BINARY_MESSAGE_SIZE then
    (s, [Effect.sendBinary bytes])
  else
    (s, (chunkLoop bytes 0).map Effect.sendBinary)

/-- Session.sendTurnResponse: wraps a bot_turn_response event entity in an
event envelope and sends it. -/
def Session.sendTurnResponse (s : Session) (disposition : String) (text : Option String)
    (confidence : Option Nat) : Session × List Effect :=
  let r := s.createMessage "event"
    (MsgParams.event "bot_turn_response" (some disposition) text confidence)
  r.1.send r.2

/-- Session.sendDisconnect: sets the disconnecting flag, then builds and sends
a disconnect envelope with the given reason and info. -/
def Session.sendDisconnect (s : Session) (reason : String) (info : String)
    (outputVariables : List (String × String)) : Session × List Effect :=
  let s1 := { s with disconnecting := true }
  let r := s1.createMessage "disconnect" (MsgParams.disconnect reason info outputVariables)
  r.1.send r.2

/-- Session.sendClosed: builds and sends a closed envelope. -/
def Session.sendClosed (s : Session) : Session × List Effect :=
  let r := s.createMessage "closed" MsgParams.closedParams
  r.1.send r.2

/-- Modelled from the spec: the MessageHandlerRegistry source is not under
src/; the spec describes it as a registry mapping each inbound message type in
a closed set of message kinds (session-open, audio-start, dtmf, event,
disconnect, closed are the kinds the spec names) to a handler. -/
def specRegistry (msgType : String) : Bool :=
  msgType == "session-open" || msgType == "audio-start" || msgType == "dtmf" ||
    msgType == "event" || msgType == "disconnect" || msgType == "closed"

/-- Session.processTextMessage, parametrized by which message types the
handler registry covers. Validation order follows the source: the closed
guard, the client sequence check, then (after advancing
lastClientSequenceNumber) the server sequence check, the session id check,
and finally handler lookup and dispatch. -/
def Session.processTextMessage (registry : String → Bool) (s : Session)
    (message : ClientEnvelope) : Session × List Effect :=
  if s.closed then (s, [])
  else if message.seq ≠ s.lastClientSequenceNumber + 1 then
    s.sendDisconnect "error" "Invalid client sequence number." []
  else
    let s1 := { s with lastClientSequenceNumber := message.seq }
    if message.serverseq > s1.lastServerSequenceNumber then
      s1.sendDisconnect "error" "Invalid server sequence number." []
    else if message.id ≠ s1.clientSessionId then
      s1.sendDisconnect "error" "Invalid ID specified." []
    else if registry message.type then
      (s1, [Effect.dispatch message.type])
    else (s1, [])

/-- The continuation attached to getBotResponse in the ASR final-transcript
handler of Session.processBinaryMessage: emit the turn event if the reply
carries text, then the audio frames if it carries audio, then a completed
disconnect if endSession is set. -/
def Session.asrOnBotResponse (s : Session) (response : BotResponse) : Session × List Effect :=
  let r1 := if truthyStr response.text then
      s.sendTurnResponse response.disposition response.text response.confidence
    else (s, [])
  let r2 := match response.audioBytes with
    | some bytes => r1.1.sendAudio bytes
    | none => (r1.1, [])
  let r3 := if truthyB response.endSession then
      r2.1.sendDisconnect "completed" "" []
    else (r2.1, [])
  (r3.1, r1.2 ++ r2.2 ++ r3.2)

/-- The continuation attached to getBotResponse in the DTMF final-digits
handler of Session.processDTMF: same emissions as the ASR continuation, and
additionally clears isCapturingDTMF at the end. -/
def Session.dtmfOnBotResponse (s : Session) (response : BotResponse) : Session × List Effect :=
  let r1 := if truthyStr response.text then
      s.sendTurnResponse response.disposition response.text response.confidence
    else (s, [])
  let r2 := match response.audioBytes with
    | some bytes => r1.1.sendAudio bytes
    | none => (r1.1, [])
  let r3 := if truthyB response.endSession then
      r2.1.sendDisconnect "completed" "" []
    else (r2.1, [])
  ({ r3.1 with isCapturingDTMF := false }, r1.2 ++ r2.2 ++ r3.2)

/-- The parts of the emission trace shared by the two bot-response
continuations, split by stage (proof helper). -/
def turnEmissions (s : Session) (response : BotResponse) :
    List Effect × List Effect × List Effect :=
  let r1 := if truthyStr response.text then
      s.sendTurnResponse response.disposition response.text response.confidence
    else (s, [])
  let r2 := match response.audioBytes with
    | some bytes => r1.1.sendAudio bytes
    | none => (r1.1, [])
  let r3 := if truthyB response.endSession then
      r2.1.sendDisconnect "completed" "" []
    else (r2.1, [])
  (r1.2, r2.2, r3.2)

/-- The error callback registered on a fresh ASR engine in
Session.processBinaryMessage: ignored while capturing DTMF, otherwise a fatal
error disconnect. -/
def Session.asrOnError (s : Session) : Session × List Effect :=
  if s.isCapturingDTMF then (s, [])
  else s.sendDisconnect "error" "Error during Speech Recognition." []

/-- The final-transcript callback registered on a fresh ASR engine in
Session.processBinaryMessage: ignored while capturing DTMF, otherwise invokes
the bot gateway with the transcript text (the reply is handled later by
Session.asrOnBotResponse). -/
def Session.asrOnFinalTranscript (s : Session) (transcriptText : String) :
    Session × List Effect :=
  if s.isCapturingDTMF then (s, [])
  else (s, [Effect.callBot transcriptText])

/-- The error callback registered on a fresh DTMF engine in
Session.processDTMF: a fatal error disconnect, with no staleness guard. -/
def Session.dtmfOnError (s : Session) : Session × List Effect :=
  s.sendDisconnect "error" "Error during DTMF Capture." []

/-- The final-digits callback registered on a fresh DTMF engine in
Session.processDTMF: invokes the bot gateway with the digit string, with no
staleness guard (the reply is handled later by Session.dtmfOnBotResponse). -/
def Session.dtmfOnFinalDigits (s : Session) (digits : String) : Session × List Effect :=
  (s, [Effect.callBot digits])

/-- Session.processBinaryMessage (synchronous part): guard on
disconnecting/closed/no bot, then on isCapturingDTMF, then on isAudioPlaying
(discarding both engine references); otherwise lazily create a fresh ASR
engine when none is live or the previous one completed, and feed it the
frame. A fresh engine starts in the Idle state (modelled from the spec's
engine state machine). -/
def Session.processBinaryMessage (s : Session) (data : List Nat) : Session × List Effect :=
  if s.disconnecting || s.closed || !s.selectedBot then (s, [])
  else if s.isCapturingDTMF then (s, [])
  else if s.isAudioPlaying then
    ({ s with asrService := none, dtmfService := none }, [])
  else
    let r1 := if s.asrService = none ∨ s.asrService = some EngineState.Complete then
        ({ s with asrService := some EngineState.Idle }, [Effect.createASR])
      else (s, [])
    (r1.1, r1.2 ++ [Effect.feedASR data])

/-- Session.processDTMF (synchronous part): guard on disconnecting/closed/no
bot, then on isAudioPlaying (discarding both engine references); otherwise,
on the first digit of a new capture set isCapturingDTMF and null the ASR
engine, lazily create a fresh DTMF engine when none is live or the previous
one completed, and feed it the digit. -/
def Session.processDTMF (s : Session) (digit : String) : Session × List Effect :=
  if s.disconnecting || s.closed || !s.selectedBot then (s, [])
  else if s.isAudioPlaying then
    ({ s with asrService := none, dtmfService := none }, [])
  else
    let s1 := if !s.isCapturingDTMF then
        { s with isCapturingDTMF := true, asrService := none }
      else s
    let r2 := if s1.dtmfService = none ∨ s1.dtmfService = some EngineState.Complete then
        ({ s1 with dtmfService := some EngineState.Idle }, [Effect.createDTMF])
      else (s1, [])
    (r2.1, r2.2 ++ [Effect.feedDTMF digit])

/-- Iterated Session.createMessage over a list of message kinds and
parameters, collecting the stamped envelopes in order (proof helper for the
outbound-run density property). -/
def runCreateMessages (s : Session) : List (String × MsgParams) → Session × List ServerMsg
  | [] => (s, [])
  | tp :: rest =>
    let r1 := s.createMessage tp.1 tp.2
    let r2 := runCreateMessages r1.1 rest
    (r2.1, r1.2 :: r2.2)

/-- Classifier: a bot_turn_response event envelope carrying the disposition,
text and confidence of the given reply. -/
def isTurnEventFor (response : BotResponse) : Effect → Bool
  | Effect.sendText m =>
    decide (m.type = "event" ∧ m.parameters =
      MsgParams.event "bot_turn_response" (some response.disposition)
        response.text response.confidence)
  | _ => false

/-- Classifier: a binary audio frame. -/
def isBinaryFrame : Effect → Bool
  | Effect.sendBinary _ => true
  | _ => false

/-- Classifier: a disconnect envelope with reason completed. -/
def isCompletedDisconnect : Effect → Bool
  | Effect.sendText m =>
    decide (m.type = "disconnect" ∧ m.parameters = MsgParams.disconnect "completed" "" [])
  | _ => false

/-- Classifier: a handler dispatch. -/
def isDispatchEffect : Effect → Bool
  | Effect.dispatch _ => true
  | _ => false

/-- A freshly constructed session (constructor state) with a given id. -/
def freshSession (sessionId : String) : Session :=
  { disconnecting := false
    closed := false
    asrService := none
    dtmfService := none
    clientSessionId := sessionId
    lastServerSequenceNumber := 0
    lastClientSequenceNumber := 0
    selectedBot := false
    isCapturingDTMF := false
    isAudioPlaying := false }

/-- A concrete healthy mid-call session used by counterexamples and
witnesses: bot selected, no capture in progress. -/
def sessionA : Session :=
  { freshSession "session-1" with selectedBot := true }

/-- A concrete session in the middle of a DTMF capture while bot audio is
playing (counterexample state for the isAudioPlaying discard property). -/
def sessionDTMFPlaying : Session :=
  { freshSession "session-1" with
      selectedBot := true
      isCapturingDTMF := true
      isAudioPlaying := true
      dtmfService := some EngineState.Capturing }

/-- A concrete session whose connection has been torn down and which has
already sent a disconnect (stale-completion counterexample state). -/
def sessionStale : Session :=
  { freshSession "session-1" with
      selectedBot := true
      disconnecting := true
      closed := true }

/-- A concrete inbound envelope with an out-of-order sequence number for
sessionA (expected seq is 1). -/
def envBadSeq : ClientEnvelope :=
  { id := "session-1", seq := 5, serverseq := 0, type := "dtmf" }

/-- A concrete inbound envelope that passes every validation check of
sessionA. -/
def envGood : ClientEnvelope :=
  { id := "session-1", seq := 1, serverseq := 0, type := "dtmf" }

/-- A concrete inbound envelope with a valid client sequence number but a
server sequence number the session has never issued. -/
def envBadServerseq : ClientEnvelope :=
  { id := "session-1", seq := 1, serverseq := 5, type := "dtmf" }

/-- A concrete bot reply carrying text and an end-of-session flag. -/
def replyEnd : BotResponse :=
  { disposition := "match"
    text := some "goodbye"
    confidence := some 1
    audioBytes := none
    endSession := some true }

section ChunkLemmas

/-- Concatenating the slices produced by the sendAudio loop from any start
position recovers the remainder of the payload. -/
theorem chunkLoop_join (bytes : List Nat) (pos : Nat) :
    (chunkLoop bytes pos).flatten = bytes.drop pos := by
  rw [chunkLoop.eq_def]
  split_ifs with h
  · have ih := chunkLoop_join bytes (pos + MAXIMUM_BINARY_MESSAGE_SIZE)
    rw [List.flatten_cons, ih, ← List.drop_drop]
    exact List.take_append_drop _ _
  · rw [List.drop_eq_nil_of_le (by omega)]
    rfl
termination_by bytes.length - pos
decreasing_by
  simp only [MAXIMUM_BINARY_MESSAGE_SIZE]
  omega

/-- Every slice produced by the sendAudio loop is within the frame ceiling. -/
theorem chunkLoop_le (bytes : List Nat) (pos : Nat) :
    ∀ c ∈ chunkLoop bytes pos, c.length ≤ MAXIMUM_BINARY_MESSAGE_SIZE := by
  rw [chunkLoop.eq_def]
  split_ifs with h
  · intro c hc
    rcases List.mem_cons.mp hc with hc | hc
    · subst hc
      simp [List.length_take]
    · exact chunkLoop_le bytes (pos + MAXIMUM_BINARY_MESSAGE_SIZE) c hc
  · intro c hc
    simp at hc
termination_by bytes.length - pos
decreasing_by
  simp only [MAXIMUM_BINARY_MESSAGE_SIZE]
  omega

/-- The loop from a position strictly inside the payload produces at least
one slice. -/
theorem chunkLoop_ne_nil (bytes : List Nat) (pos : Nat) (h : pos < bytes.length) :
    chunkLoop bytes pos ≠ [] := by
  rw [chunkLoop.eq_def, dif_pos h]
  exact List.cons_ne_nil _ _

/-- The ceiling-division step identity behind the frame count. -/
theorem ceilDiv_step (r : Nat) (h : 1 ≤ r) :
    (r + MAXIMUM_BINARY_MESSAGE_SIZE - 1) / MAXIMUM_BINARY_MESSAGE_SIZE
      = 1 + (r - MAXIMUM_BINARY_MESSAGE_SIZE + MAXIMUM_BINARY_MESSAGE_SIZE - 1)
          / MAXIMUM_BINARY_MESSAGE_SIZE := by
  simp only [MAXIMUM_BINARY_MESSAGE_SIZE]
  rcases le_or_lt r 64000 with hr | hr
  · have h1 : r - 64000 = 0 := by omega
    have h2 : (0 + 64000 - 1 : Nat) / 64000 = 0 := Nat.div_eq_of_lt (by norm_num)
    have h3 : (r + 64000 - 1) / 64000 = 1 :=
      @Nat.div_eq_of_lt_le 1 64000 (r + 64000 - 1) (by omega) (by omega)
    rw [h1, h2, h3]
  · have h1 : r - 64000 + 64000 - 1 = r - 1 := by omega
    have h2 : r + 64000 - 1 = (r - 1) + 64000 := by omega
    rw [h1, h2, Nat.add_div_right _ (by norm_num)]
    omega

/-- The loop produces exactly the ceiling of remaining-length over the frame
ceiling many slices. -/
theorem chunkLoop_length (bytes : List Nat) (pos : Nat) :
    (chunkLoop bytes pos).length
      = (bytes.length - pos + MAXIMUM_BINARY_MESSAGE_SIZE - 1) / MAXIMUM_BINARY_MESSAGE_SIZE := by
  rw [chunkLoop.eq_def]
  split_ifs with h
  · have ih := chunkLoop_length bytes (pos + MAXIMUM_BINARY_MESSAGE_SIZE)
    have hstep := ceilDiv_step (bytes.length - pos) (by omega)
    have hsub : bytes.length - (pos + MAXIMUM_BINARY_MESSAGE_SIZE)
        = bytes.length - pos - MAXIMUM_BINARY_MESSAGE_SIZE := by omega
    rw [List.length_cons, ih, hsub]
    omega
  · have h0 : bytes.length - pos = 0 := by omega
    rw [h0]
    simp only [MAXIMUM_BINARY_MESSAGE_SIZE, List.length_nil]
termination_by bytes.length - pos
decreasing_by
  simp only [MAXIMUM_BINARY_MESSAGE_SIZE]
  omega

/-- Every slice except the last one is exactly the frame ceiling long. -/
theorem chunkLoop_dropLast (bytes : List Nat) (pos : Nat) :
    ∀ c ∈ (chunkLoop bytes pos).dropLast, c.length = MAXIMUM_BINARY_MESSAGE_SIZE := by
  rw [chunkLoop.eq_def]
  split_ifs with h
  · by_cases h2 : pos + MAXIMUM_BINARY_MESSAGE_SIZE < bytes.length
    · obtain ⟨r0, rtail, hrest⟩ :=
        List.exists_cons_of_ne_nil (chunkLoop_ne_nil bytes (pos + MAXIMUM_BINARY_MESSAGE_SIZE) h2)
      rw [hrest, List.dropLast_cons₂]
      intro c hc
      rcases List.mem_cons.mp hc with hc | hc
      · subst hc
        rw [List.length_take, List.length_drop]
        omega
      · have ih := chunkLoop_dropLast bytes (pos + MAXIMUM_BINARY_MESSAGE_SIZE)
        rw [hrest] at ih
        exact ih c hc
    · have hrest : chunkLoop bytes (pos + MAXIMUM_BINARY_MESSAGE_SIZE) = [] := by
        rw [chunkLoop.eq_def, dif_neg h2]
      rw [hrest]
      intro c hc
      simp at hc
  · intro c hc
    simp at hc
termination_by bytes.length - pos
decreasing_by
  simp only [MAXIMUM_BINARY_MESSAGE_SIZE]
  omega

end ChunkLemmas

/-- Session.sendAudio emits exactly the frames described by sendAudioChunks,
leaving the session state untouched. -/
theorem sendAudio_eq (s : Session) (bytes : List Nat) :
    s.sendAudio bytes = (s, (sendAudioChunks bytes).map Effect.sendBinary) := by
  unfold Session.sendAudio sendAudioChunks
  split_ifs with h
  · rfl
  · rfl

/-- The frame list of a payload is never empty: even an empty payload goes
out as one (empty) frame. -/
theorem sendAudioChunks_ne_nil (bytes : List Nat) : sendAudioChunks bytes ≠ [] := by
  unfold sendAudioChunks
  split_ifs with h
  · exact List.cons_ne_nil _ _
  · exact chunkLoop_ne_nil bytes 0 (by simp only [MAXIMUM_BINARY_MESSAGE_SIZE] at h; omega)

/-- Claim C5: for every byte array b, sendAudio with b.length at most the
64000-byte frame ceiling sends exactly one binary frame containing b; with
b.length greater than the ceiling it sends exactly ceil(b.length/64000)
binary frames, in order, each of length at most 64000, all but the last of
length exactly 64000, whose in-order concatenation equals b; in particular
any 150000-byte payload yields three frames of sizes 64000, 64000, 22000. -/
theorem c5_sendAudio_chunking (s : Session) (bytes : List Nat) :
    s.sendAudio bytes = (s, (sendAudioChunks bytes).map Effect.sendBinary)
    ∧ (bytes.length ≤ 64000 → sendAudioChunks bytes = [bytes])
    ∧ (64000 < bytes.length →
        (sendAudioChunks bytes).length = (bytes.length + 64000 - 1) / 64000
        ∧ (∀ c ∈ sendAudioChunks bytes, c.length ≤ 64000)
        ∧ (∀ c ∈ (sendAudioChunks bytes).dropLast, c.length = 64000)
        ∧ (sendAudioChunks bytes).flatten = bytes)
    ∧ (bytes.length = 150000 →
        (sendAudioChunks bytes).map List.length = [64000, 64000, 22000]) := by
  have hM : MAXIMUM_BINARY_MESSAGE_SIZE = 64000 := rfl
  have hbig : ∀ hb : 64000 < bytes.length,
      (sendAudioChunks bytes).length = (bytes.length + 64000 - 1) / 64000
      ∧ (∀ c ∈ sendAudioChunks bytes, c.length ≤ 64000)
      ∧ (∀ c ∈ (sendAudioChunks bytes).dropLast, c.length = 64000)
      ∧ (sendAudioChunks bytes).flatten = bytes := by
    intro h
    have hchunks : sendAudioChunks bytes = chunkLoop bytes 0 := by
      unfold sendAudioChunks
      rw [if_neg (by omega)]
    refine ⟨?_, ?_, ?_, ?_⟩
    · rw [hchunks, chunkLoop_length, hM, Nat.sub_zero]
    · rw [hchunks]
      intro c hc
      have := chunkLoop_le bytes 0 c hc
      omega
    · rw [hchunks]
      intro c hc
      have := chunkLoop_dropLast bytes 0 c hc
      omega
    · rw [hchunks, chunkLoop_join, List.drop_zero]
  refine ⟨sendAudio_eq s bytes, ?_, hbig, ?_⟩
  · intro h
    unfold sendAudioChunks
    rw [if_pos (by omega)]
  · intro h150
    have h := hbig (by omega)
    have hlen3 : (sendAudioChunks bytes).length = 3 := by
      rw [h.1, h150]
    obtain ⟨c1, c2, c3, hc⟩ := List.length_eq_three.mp hlen3
    have hdl := h.2.2.1
    rw [hc] at hdl
    have hc1 : c1.length = 64000 := hdl c1 (by simp)
    have hc2 : c2.length = 64000 := hdl c2 (by simp)
    have hflat := h.2.2.2
    rw [hc] at hflat
    have hsum : c1.length + (c2.length + c3.length) = 150000 := by
      have := congrArg List.length hflat
      simpa [h150] using this
    have hc3 : c3.length = 22000 := by omega
    rw [hc, List.map_cons, List.map_cons, List.map_cons, List.map_nil, hc1, hc2, hc3]

/-- Witness for C5: a small payload goes out as a single frame, and an
oversized payload reassembles to the original bytes by concatenation. -/
theorem c5_sendAudio_chunking_witness :
    ((freshSession "w").sendAudio [1, 2, 3]).2 = [Effect.sendBinary [1, 2, 3]]
    ∧ (sendAudioChunks (List.replicate 70000 1)).flatten = List.replicate 70000 1 := by
  constructor
  · have h := c5_sendAudio_chunking (freshSession "w") [1, 2, 3]
    rw [h.1, h.2.1 (by decide)]
    rfl
  · have h := c5_sendAudio_chunking (freshSession "w") (List.replicate 70000 1)
    have hlen : (64000:Nat) < (List.replicate 70000 (1:Nat)).length :=
      lt_of_lt_of_eq (by decide : (64000:Nat) < 70000) (List.length_replicate 70000 1).symm
    exact (h.2.2.1 hlen).2.2.2

/-- Claim C8: close is idempotent — the closed flag guards double invocation,
the transport close is attempted at most once across repeated calls, the
second call has no observable effect, and an error thrown by the transport
close is swallowed (the result never depends on whether it threw). -/
theorem c8_close_idempotent (s : Session) (t1 t2 : Bool) :
    (s.close t1).1.close t2 = ((s.close t1).1, [])
    ∧ (s.close t1).1.closed = true
    ∧ ((s.close t1).2 ++ ((s.close t1).1.close t2).2).count Effect.wsCloseAttempt ≤ 1
    ∧ s.close t1 = s.close t2 := by
  by_cases h : s.closed = true
  · have h1 : s.close t1 = (s, []) := by
      unfold Session.close
      rw [if_pos h]
    have h2 : s.close t2 = (s, []) := by
      unfold Session.close
      rw [if_pos h]
    have k1 : (s.close t1).1 = s := by rw [h1]
    have k2 : (s.close t1).2 = [] := by rw [h1]
    refine ⟨?_, ?_, ?_, h1.trans h2.symm⟩
    · rw [k1]
      exact h2
    · rw [k1]
      exact h
    · rw [k1, k2, h2]
      simp
  · have h1 : s.close t1 = ({ s with closed := true }, [Effect.wsCloseAttempt]) := by
      unfold Session.close
      rw [if_neg h]
    have h2 : s.close t2 = ({ s with closed := true }, [Effect.wsCloseAttempt]) := by
      unfold Session.close
      rw [if_neg h]
    have h3 : ({ s with closed := true } : Session).close t2
        = ({ s with closed := true }, []) := by
      unfold Session.close
      rw [if_pos rfl]
    have k1 : (s.close t1).1 = { s with closed := true } := by rw [h1]
    have k2 : (s.close t1).2 = [Effect.wsCloseAttempt] := by rw [h1]
    refine ⟨?_, ?_, ?_, h1.trans h2.symm⟩
    · rw [k1]
      exact h3
    · rw [k1]
    · rw [k1, k2, h3]
      simp

/-- Claim C2: every outbound envelope is stamped by createMessage with
seq = previous lastServerSequenceNumber + 1, clientseq = current
lastClientSequenceNumber, id = clientSessionId and version 2; the state
advances the server counter by one and changes nothing else, so over any run
of consecutive createMessage calls the outbound sequence numbers are exactly
the dense increasing range starting one past the initial counter — and each
envelope-sending path (turn response, disconnect, closed) emits exactly the
message stamped that way. -/
theorem c2_createMessage_stamping (s : Session) (msgType : String) (p : MsgParams) :
    ((s.createMessage msgType p).2.seq = s.lastServerSequenceNumber + 1
      ∧ (s.createMessage msgType p).2.clientseq = s.lastClientSequenceNumber
      ∧ (s.createMessage msgType p).2.id = s.clientSessionId
      ∧ (s.createMessage msgType p).2.version = "2"
      ∧ (s.createMessage msgType p).2.type = msgType
      ∧ (s.createMessage msgType p).1.lastServerSequenceNumber
          = s.lastServerSequenceNumber + 1
      ∧ (s.createMessage msgType p).1.lastClientSequenceNumber
          = s.lastClientSequenceNumber)
    ∧ (∀ run : List (String × MsgParams),
        ((runCreateMessages s run).2.map ServerMsg.seq)
          = List.range' (s.lastServerSequenceNumber + 1) run.length)
    ∧ (∀ d oT oC, (s.sendTurnResponse d oT oC).2
        = [Effect.sendText (s.createMessage "event"
            (MsgParams.event "bot_turn_response" (some d) oT oC)).2])
    ∧ (∀ reason info oV, (s.sendDisconnect reason info oV).2
        = [Effect.sendText
            { id := s.clientSessionId
              version := "2"
              seq := s.lastServerSequenceNumber + 1
              clientseq := s.lastClientSequenceNumber
              type := "disconnect"
              parameters := MsgParams.disconnect reason info oV }])
    ∧ s.sendClosed.2
        = [Effect.sendText (s.createMessage "closed" MsgParams.closedParams).2] := by
  refine ⟨⟨rfl, rfl, rfl, rfl, rfl, rfl, rfl⟩, ?_, fun d oT oC => rfl,
    fun reason info oV => rfl, rfl⟩
  intro run
  induction run generalizing s with
  | nil => simp [runCreateMessages]
  | cons tp rest ih =>
    rw [runCreateMessages]
    simp only [List.map_cons, List.length_cons, List.range'_succ]
    rw [ih]
    rfl

/-- An inbound envelope on a closed session is dropped. -/
theorem processTextMessage_closed (registry : String → Bool) (s : Session)
    (msg : ClientEnvelope) (h : s.closed = true) :
    Session.processTextMessage registry s msg = (s, []) := by
  unfold Session.processTextMessage
  rw [if_pos h]

/-- An inbound envelope with an out-of-order client sequence number yields
the error disconnect, with no state change beyond it. -/
theorem processTextMessage_badseq (registry : String → Bool) (s : Session)
    (msg : ClientEnvelope) (hclosed : s.closed = false)
    (hseq : msg.seq ≠ s.lastClientSequenceNumber + 1) :
    Session.processTextMessage registry s msg
      = s.sendDisconnect "error" "Invalid client sequence number." [] := by
  unfold Session.processTextMessage
  rw [if_neg (by simp [hclosed]), if_pos hseq]

/-- Once the client sequence check passes, lastClientSequenceNumber has been
advanced and the remaining checks run on the advanced state. -/
theorem processTextMessage_after_seq_ok (registry : String → Bool) (s : Session)
    (msg : ClientEnvelope) (hclosed : s.closed = false)
    (hseq : msg.seq = s.lastClientSequenceNumber + 1) :
    Session.processTextMessage registry s msg
      = (if msg.serverseq > s.lastServerSequenceNumber then
          ({ s with lastClientSequenceNumber := msg.seq } : Session).sendDisconnect
            "error" "Invalid server sequence number." []
        else if msg.id ≠ s.clientSessionId then
          ({ s with lastClientSequenceNumber := msg.seq } : Session).sendDisconnect
            "error" "Invalid ID specified." []
        else if registry msg.type then
          ({ s with lastClientSequenceNumber := msg.seq }, [Effect.dispatch msg.type])
        else ({ s with lastClientSequenceNumber := msg.seq }, [])) := by
  unfold Session.processTextMessage
  rw [if_neg (by simp [hclosed]), if_neg (by simp [hseq])]

/-- A fully valid envelope is dispatched to its handler when the registry
covers its type. -/
theorem processTextMessage_valid (registry : String → Bool) (s : Session)
    (msg : ClientEnvelope) (hclosed : s.closed = false)
    (hseq : msg.seq = s.lastClientSequenceNumber + 1)
    (hss : msg.serverseq ≤ s.lastServerSequenceNumber)
    (hid : msg.id = s.clientSessionId) (hreg : registry msg.type = true) :
    Session.processTextMessage registry s msg
      = ({ s with lastClientSequenceNumber := msg.seq }, [Effect.dispatch msg.type]) := by
  rw [processTextMessage_after_seq_ok registry s msg hclosed hseq]
  rw [if_neg (by omega), if_neg (by simp [hid]), if_pos hreg]

/-- Counterexample to claim C1 as stated: after a sequence violation has
produced the error disconnect, processing of further input does not stop — a
subsequently delivered envelope that passes validation is still dispatched
to its message handler, because processTextMessage never consults the
disconnecting flag. -/
theorem c1_counterexample :
    envBadSeq.seq ≠ sessionA.lastClientSequenceNumber + 1
    ∧ (Session.processTextMessage specRegistry sessionA envBadSeq).2
        = [Effect.sendText
            { id := "session-1"
              version := "2"
              seq := 1
              clientseq := 0
              type := "disconnect"
              parameters := MsgParams.disconnect "error"
                "Invalid client sequence number." [] }]
    ∧ (Session.processTextMessage specRegistry sessionA envBadSeq).1.disconnecting = true
    ∧ (Session.processTextMessage specRegistry
          (Session.processTextMessage specRegistry sessionA envBadSeq).1 envGood).2
        = [Effect.dispatch "dtmf"] := by
  decide

/-- Claim C1 (amended): an inbound envelope whose seq is not
lastClientSequenceNumber + 1 yields exactly one disconnect envelope with
reason error, no handler is invoked for that envelope, the disconnecting
flag is set and lastClientSequenceNumber is unchanged; however the session
does not stop processing further text envelopes — any subsequently delivered
envelope that passes validation (on a session that is not closed, whatever
its disconnecting flag) is still dispatched to its handler. -/
theorem c1_sequence_violation (registry : String → Bool) (s : Session)
    (msg : ClientEnvelope) (hclosed : s.closed = false)
    (hseq : msg.seq ≠ s.lastClientSequenceNumber + 1) :
    (Session.processTextMessage registry s msg).2
        = [Effect.sendText
            { id := s.clientSessionId
              version := "2"
              seq := s.lastServerSequenceNumber + 1
              clientseq := s.lastClientSequenceNumber
              type := "disconnect"
              parameters := MsgParams.disconnect "error"
                "Invalid client sequence number." [] }]
    ∧ (Session.processTextMessage registry s msg).1.disconnecting = true
    ∧ (Session.processTextMessage registry s msg).1.lastClientSequenceNumber
        = s.lastClientSequenceNumber
    ∧ (Session.processTextMessage registry s msg).2.all
        (fun e => !(isDispatchEffect e)) = true
    ∧ (∀ s2 msg2, s2.closed = false → msg2.seq = s2.lastClientSequenceNumber + 1 →
        msg2.serverseq ≤ s2.lastServerSequenceNumber → msg2.id = s2.clientSessionId →
        registry msg2.type = true →
        (Session.processTextMessage registry s2 msg2).2 = [Effect.dispatch msg2.type]) := by
  have hstep := processTextMessage_badseq registry s msg hclosed hseq
  refine ⟨by rw [hstep]; rfl, by rw [hstep]; rfl, by rw [hstep]; rfl,
    by rw [hstep]; rfl, ?_⟩
  intro s2 msg2 h1 h2 h3 h4 h5
  rw [processTextMessage_valid registry s2 msg2 h1 h2 h3 h4 h5]

/-- Witness for C1 (amended) at concrete inputs: the violating envelope
leaves the client counter unchanged, and on the resulting session a valid
envelope is still dispatched. -/
theorem c1_sequence_violation_witness :
    (Session.processTextMessage specRegistry sessionA envBadSeq).1.lastClientSequenceNumber
        = sessionA.lastClientSequenceNumber
    ∧ (Session.processTextMessage specRegistry
          (Session.processTextMessage specRegistry sessionA envBadSeq).1 envGood).2
        = [Effect.dispatch envGood.type] := by
  have h := c1_sequence_violation specRegistry sessionA envBadSeq (by decide) (by decide)
  exact ⟨h.2.2.1,
    h.2.2.2.2 (Session.processTextMessage specRegistry sessionA envBadSeq).1 envGood
      (by decide) (by decide) (by decide) (by decide) (by decide)⟩

/-- Counterexample to claim C9 as stated: an envelope whose seq check passes
but whose serverseq check fails still advances lastClientSequenceNumber,
because the source advances the counter before running the serverseq and id
checks. -/
theorem c9_counterexample :
    envBadServerseq.seq = sessionA.lastClientSequenceNumber + 1
    ∧ envBadServerseq.serverseq > sessionA.lastServerSequenceNumber
    ∧ sessionA.lastClientSequenceNumber = 0
    ∧ (Session.processTextMessage specRegistry sessionA envBadServerseq).1.lastClientSequenceNumber
        = 1
    ∧ (Session.processTextMessage specRegistry sessionA envBadServerseq).2.all
        (fun e => !(isDispatchEffect e)) = true := by
  decide

/-- Claim C9 (amended): lastClientSequenceNumber is advanced exactly when the
seq check passes, which happens before the serverseq and id checks; on any
violation the envelope is not routed to a handler and exactly one error
disconnect is emitted, but on a serverseq or id violation the client counter
has already been advanced to the envelope's seq (only on a seq violation is
the sequencing state unchanged apart from the disconnect emission). -/
theorem c9_validation_and_counter (registry : String → Bool) (s : Session)
    (msg : ClientEnvelope) (hclosed : s.closed = false) :
    (msg.seq ≠ s.lastClientSequenceNumber + 1 →
      (Session.processTextMessage registry s msg).1.lastClientSequenceNumber
          = s.lastClientSequenceNumber
      ∧ (Session.processTextMessage registry s msg).2.all
          (fun e => !(isDispatchEffect e)) = true
      ∧ (Session.processTextMessage registry s msg).2
          = [Effect.sendText
              { id := s.clientSessionId
                version := "2"
                seq := s.lastServerSequenceNumber + 1
                clientseq := s.lastClientSequenceNumber
                type := "disconnect"
                parameters := MsgParams.disconnect "error"
                  "Invalid client sequence number." [] }])
    ∧ (msg.seq = s.lastClientSequenceNumber + 1 →
        (Session.processTextMessage registry s msg).1.lastClientSequenceNumber = msg.seq
        ∧ (msg.serverseq > s.lastServerSequenceNumber ∨ msg.id ≠ s.clientSessionId →
            (Session.processTextMessage registry s msg).2.all
              (fun e => !(isDispatchEffect e)) = true
            ∧ ∃ info, (Session.processTextMessage registry s msg).2
                = [Effect.sendText
                    { id := s.clientSessionId
                      version := "2"
                      seq := s.lastServerSequenceNumber + 1
                      clientseq := msg.seq
                      type := "disconnect"
                      parameters := MsgParams.disconnect "error" info [] }])
        ∧ (msg.serverseq ≤ s.lastServerSequenceNumber → msg.id = s.clientSessionId →
            (Session.processTextMessage registry s msg).2
              = (if registry msg.type then [Effect.dispatch msg.type] else []))) := by
  constructor
  · intro hseq
    have hstep := processTextMessage_badseq registry s msg hclosed hseq
    exact ⟨by rw [hstep]; rfl, by rw [hstep]; rfl, by rw [hstep]; rfl⟩
  · intro hseq
    have hstep := processTextMessage_after_seq_ok registry s msg hclosed hseq
    refine ⟨?_, ?_, ?_⟩
    · rw [hstep]
      split_ifs <;> rfl
    · intro hbad
      rw [hstep]
      rcases hbad with hss | hid2
      · rw [if_pos hss]
        exact ⟨rfl, "Invalid server sequence number.", rfl⟩
      · by_cases hss : msg.serverseq > s.lastServerSequenceNumber
        · rw [if_pos hss]
          exact ⟨rfl, "Invalid server sequence number.", rfl⟩
        · rw [if_neg hss, if_pos hid2]
          exact ⟨rfl, "Invalid ID specified.", rfl⟩
    · intro hss hid2
      rw [hstep, if_neg (by omega), if_neg (by simp [hid2])]
      split_ifs <;> rfl

/-- Witness for C9 (amended) at concrete inputs: the serverseq-violating
envelope advances the counter to its seq and is not dispatched. -/
theorem c9_validation_and_counter_witness :
    (Session.processTextMessage specRegistry sessionA envBadServerseq).1.lastClientSequenceNumber
        = envBadServerseq.seq
    ∧ (Session.processTextMessage specRegistry sessionA envBadServerseq).2.all
        (fun e => !(isDispatchEffect e)) = true
    ∧ (Session.processTextMessage specRegistry sessionA envGood).2
        = (if specRegistry envGood.type then [Effect.dispatch envGood.type] else []) := by
  have h := c9_validation_and_counter specRegistry sessionA envBadServerseq (by decide)
  have h2 := c9_validation_and_counter specRegistry sessionA envGood (by decide)
  refine ⟨(h.2 (by decide)).1, ((h.2 (by decide)).2.1 (by decide)).1, ?_⟩
  exact (h2.2 (by decide)).2.2 (by decide) (by decide)

/-- Claim C3: at most one capture engine is live at any instant — starting
digit capture discards the speech engine first (on the first digit of a new
capture, processDTMF sets isCapturingDTMF and nulls asrService), and while
isCapturingDTMF is true processBinaryMessage returns immediately without
creating or feeding a speech engine (state unchanged, no effects). -/
theorem c3_capture_mutual_exclusion (s : Session) (digit : String) (data : List Nat) :
    (s.disconnecting = false → s.closed = false → s.selectedBot = true →
      s.isAudioPlaying = false → s.isCapturingDTMF = false →
      (s.processDTMF digit).1.isCapturingDTMF = true
      ∧ (s.processDTMF digit).1.asrService = none)
    ∧ (s.isCapturingDTMF = true → s.processBinaryMessage data = (s, [])) := by
  constructor
  · intro hd hc hb hap hcap
    unfold Session.processDTMF
    rw [if_neg (by simp [hd, hc, hb]), if_neg (by simp [hap])]
    simp only [hcap, Bool.not_false, if_true]
    split_ifs <;> exact ⟨rfl, rfl⟩
  · intro hcap
    unfold Session.processBinaryMessage
    split_ifs <;> rfl

/-- Witness for C3 at concrete inputs: a first digit on a healthy session
starts digit capture and nulls the speech engine; a binary frame during
digit capture is a no-op. -/
theorem c3_capture_mutual_exclusion_witness :
    ((sessionA.processDTMF "5").1.isCapturingDTMF = true
      ∧ (sessionA.processDTMF "5").1.asrService = none)
    ∧ Session.processBinaryMessage { sessionA with isCapturingDTMF := true } [7]
        = ({ sessionA with isCapturingDTMF := true }, []) := by
  have h1 := c3_capture_mutual_exclusion sessionA "5" [7]
  have h2 := c3_capture_mutual_exclusion
    { sessionA with isCapturingDTMF := true } "5" [7]
  exact ⟨h1.1 (by decide) (by decide) (by decide) (by decide) (by decide),
    h2.2 (by decide)⟩

/-- Counterexample to claim C4 as stated: with isAudioPlaying true but
isCapturingDTMF also true, processBinaryMessage returns before reaching the
isAudioPlaying branch and does not null the engine references — the live
DTMF engine instance survives, contradicting that both operations set both
references to null. -/
theorem c4_counterexample :
    sessionDTMFPlaying.isAudioPlaying = true
    ∧ sessionDTMFPlaying.disconnecting = false
    ∧ sessionDTMFPlaying.closed = false
    ∧ sessionDTMFPlaying.selectedBot = true
    ∧ (sessionDTMFPlaying.processBinaryMessage [0]).1.dtmfService
        = some EngineState.Capturing := by
  decide

/-- Claim C4 (amended): while isAudioPlaying is true, no inbound binary
frame or DTMF digit is routed to any capture engine and no output is
emitted; on a session that is not disconnecting/closed and has a bot,
processDTMF discards both engine references, and processBinaryMessage does
so only when isCapturingDTMF is false — when isCapturingDTMF is true it
returns before the isAudioPlaying check, leaving the references unchanged. -/
theorem c4_audio_playing_suppression (s : Session) (data : List Nat) (digit : String)
    (hap : s.isAudioPlaying = true) :
    (s.processBinaryMessage data).2 = []
    ∧ (s.processDTMF digit).2 = []
    ∧ (s.disconnecting = false → s.closed = false → s.selectedBot = true →
        ((s.processDTMF digit).1.asrService = none
          ∧ (s.processDTMF digit).1.dtmfService = none)
        ∧ (s.isCapturingDTMF = false →
            (s.processBinaryMessage data).1.asrService = none
            ∧ (s.processBinaryMessage data).1.dtmfService = none)
        ∧ (s.isCapturingDTMF = true → s.processBinaryMessage data = (s, []))) := by
  refine ⟨?_, ?_, ?_⟩
  · unfold Session.processBinaryMessage
    split_ifs <;> rfl
  · unfold Session.processDTMF
    split_ifs <;> rfl
  · intro hd hc hb
    refine ⟨?_, ?_, ?_⟩
    · unfold Session.processDTMF
      rw [if_neg (by simp [hd, hc, hb]), if_pos hap]
      exact ⟨rfl, rfl⟩
    · intro hcap
      unfold Session.processBinaryMessage
      rw [if_neg (by simp [hd, hc, hb]), if_neg (by simp [hcap]), if_pos hap]
      exact ⟨rfl, rfl⟩
    · intro hcap
      unfold Session.processBinaryMessage
      rw [if_neg (by simp [hd, hc, hb]), if_pos hcap]

/-- Witness for C4 (amended) at a concrete playing session: a digit discards
both engines, and a frame while also capturing DTMF leaves the session
untouched. -/
theorem c4_audio_playing_suppression_witness :
    (Session.processBinaryMessage
        { sessionA with isAudioPlaying := true, asrService := some EngineState.Capturing }
        [0]).1.asrService = none
    ∧ (Session.processDTMF
        { sessionA with isAudioPlaying := true, asrService := some EngineState.Capturing }
        "1").1.asrService = none
    ∧ sessionDTMFPlaying.processBinaryMessage [0] = (sessionDTMFPlaying, []) := by
  have h1 := c4_audio_playing_suppression
    { sessionA with isAudioPlaying := true, asrService := some EngineState.Capturing }
    [0] "1" (by decide)
  have h2 := c4_audio_playing_suppression sessionDTMFPlaying [0] "1" (by decide)
  exact ⟨((h1.2.2 (by decide) (by decide) (by decide)).2.1 (by decide)).1,
    (h1.2.2 (by decide) (by decide) (by decide)).1.1,
    (h2.2.2 (by decide) (by decide) (by decide)).2.2 (by decide)⟩

/-- Every mapped binary-send is classified as a binary frame. -/
theorem all_isBinaryFrame_map (l : List (List Nat)) :
    (l.map Effect.sendBinary).all isBinaryFrame = true := by
  induction l with
  | nil => rfl
  | cons a t ih => simp [List.all_cons, isBinaryFrame, ih]

/-- The ASR bot-response continuation emits exactly the three stages of
turnEmissions, in order. -/
theorem asrOnBotResponse_parts (s : Session) (response : BotResponse) :
    (Session.asrOnBotResponse s response).2
      = (turnEmissions s response).1 ++ (turnEmissions s response).2.1
          ++ (turnEmissions s response).2.2 := rfl

/-- The DTMF bot-response continuation emits exactly the three stages of
turnEmissions, in order. -/
theorem dtmfOnBotResponse_parts (s : Session) (response : BotResponse) :
    (Session.dtmfOnBotResponse s response).2
      = (turnEmissions s response).1 ++ (turnEmissions s response).2.1
          ++ (turnEmissions s response).2.2 := rfl

/-- The first stage holds only bot_turn_response event envelopes carrying
the reply's disposition, text and confidence, and is present exactly when
the reply carries (truthy) text. -/
theorem turnEmissions_fst (s : Session) (response : BotResponse) :
    (turnEmissions s response).1.all (isTurnEventFor response) = true
    ∧ (((turnEmissions s response).1 = []) ↔ truthyStr response.text = false) := by
  unfold turnEmissions
  cases h : truthyStr response.text <;>
    simp [h, Session.sendTurnResponse, Session.createMessage, Session.send, isTurnEventFor]

/-- The second stage holds only binary frames and is present exactly when
the reply carries audio bytes. -/
theorem turnEmissions_snd (s : Session) (response : BotResponse) :
    (turnEmissions s response).2.1.all isBinaryFrame = true
    ∧ (((turnEmissions s response).2.1 = []) ↔ response.audioBytes = none) := by
  unfold turnEmissions
  cases h : response.audioBytes with
  | none => simp [h]
  | some bytes =>
    simp only [h]
    constructor
    · rw [sendAudio_eq]
      exact all_isBinaryFrame_map (sendAudioChunks bytes)
    · rw [sendAudio_eq]
      simp [sendAudioChunks_ne_nil bytes]

/-- The third stage holds only completed-disconnect envelopes and is present
exactly when the reply sets endSession. -/
theorem turnEmissions_thd (s : Session) (response : BotResponse) :
    (turnEmissions s response).2.2.all isCompletedDisconnect = true
    ∧ (((turnEmissions s response).2.2 = []) ↔ truthyB response.endSession = false) := by
  unfold turnEmissions
  cases h : truthyB response.endSession <;>
    simp [h, Session.sendDisconnect, Session.createMessage, Session.send,
      isCompletedDisconnect]

/-- Claim C6: for every bot reply completing a turn (from a final speech
transcript or a final digit string), the emission trace decomposes into
three stages in this exact order — first the bot_turn_response event
envelope (present exactly when the reply carries text, and carrying its
disposition, text and confidence), then the binary audio frames (present
exactly when the reply carries audioBytes), then the disconnect envelope
with reason completed (present exactly when endSession is set) — so no
emission of a later stage precedes an earlier one. -/
theorem c6_turn_emission_order (s : Session) (response : BotResponse) :
    ((Session.asrOnBotResponse s response).2
        = (turnEmissions s response).1 ++ (turnEmissions s response).2.1
            ++ (turnEmissions s response).2.2)
    ∧ ((Session.dtmfOnBotResponse s response).2
        = (turnEmissions s response).1 ++ (turnEmissions s response).2.1
            ++ (turnEmissions s response).2.2)
    ∧ (turnEmissions s response).1.all (isTurnEventFor response) = true
    ∧ (turnEmissions s response).2.1.all isBinaryFrame = true
    ∧ (turnEmissions s response).2.2.all isCompletedDisconnect = true
    ∧ (((turnEmissions s response).1 = []) ↔ truthyStr response.text = false)
    ∧ (((turnEmissions s response).2.1 = []) ↔ response.audioBytes = none)
    ∧ (((turnEmissions s response).2.2 = []) ↔ truthyB response.endSession = false) :=
  ⟨asrOnBotResponse_parts s response, dtmfOnBotResponse_parts s response,
    (turnEmissions_fst s response).1, (turnEmissions_snd s response).1,
    (turnEmissions_thd s response).1, (turnEmissions_fst s response).2,
    (turnEmissions_snd s response).2, (turnEmissions_thd s response).2⟩

/-- Counterexample to claim C7 as stated: a bot reply resolving on a session
that is both closed and disconnecting is not discarded — the DTMF
continuation still emits the turn event and the completed disconnect. -/
theorem c7_counterexample :
    sessionStale.closed = true
    ∧ sessionStale.disconnecting = true
    ∧ (Session.dtmfOnBotResponse sessionStale replyEnd).2 ≠ []
    ∧ (Session.dtmfOnBotResponse sessionStale replyEnd).2.any isCompletedDisconnect
        = true
    ∧ (Session.dtmfOnBotResponse sessionStale replyEnd).2.any
        (isTurnEventFor replyEnd) = true := by
  decide

/-- The three emission stages do not depend on the closed and disconnecting
flags: overriding both changes nothing in what is emitted. -/
theorem turnEmissions_flags (s : Session) (response : BotResponse) :
    turnEmissions { s with closed := true, disconnecting := true } response
      = turnEmissions s response := by
  unfold turnEmissions
  cases ht : truthyStr response.text <;> cases ha : response.audioBytes <;>
    cases he : truthyB response.endSession <;>
    simp [ht, ha, he, Session.sendTurnResponse, Session.createMessage, Session.send,
      Session.sendDisconnect, sendAudio_eq]

/-- Claim C7 (amended): stale asynchronous completions are not detected or
discarded — the bot-reply continuations and the final-result callbacks
behave identically whether or not closed/disconnecting are set, so their
emissions (event envelope, audio frames, disconnect) are still produced
after shutdown has begun; the only suppression is the isCapturingDTMF guard
in the speech engine's callbacks. -/
theorem c7_stale_completions_not_discarded (s : Session) (response : BotResponse)
    (transcriptText digits : String) :
    ((Session.dtmfOnBotResponse { s with closed := true, disconnecting := true }
        response).2
      = (Session.dtmfOnBotResponse s response).2)
    ∧ ((Session.asrOnBotResponse { s with closed := true, disconnecting := true }
        response).2
      = (Session.asrOnBotResponse s response).2)
    ∧ Session.dtmfOnFinalDigits { s with closed := true, disconnecting := true } digits
        = ({ s with closed := true, disconnecting := true }, [Effect.callBot digits])
    ∧ (s.isCapturingDTMF = false →
        Session.asrOnFinalTranscript { s with closed := true, disconnecting := true }
          transcriptText
        = ({ s with closed := true, disconnecting := true },
            [Effect.callBot transcriptText]))
    ∧ (truthyStr response.text = true →
        (Session.dtmfOnBotResponse s response).2 ≠ []) := by
  refine ⟨?_, ?_, rfl, ?_, ?_⟩
  · rw [dtmfOnBotResponse_parts, dtmfOnBotResponse_parts, turnEmissions_flags]
  · rw [asrOnBotResponse_parts, asrOnBotResponse_parts, turnEmissions_flags]
  · intro h
    unfold Session.asrOnFinalTranscript
    rw [if_neg (by simp [h])]
  · intro ht hcontra
    rw [dtmfOnBotResponse_parts] at hcontra
    rcases List.append_eq_nil.mp hcontra with ⟨h12, _⟩
    rcases List.append_eq_nil.mp h12 with ⟨h1, _⟩
    rw [(turnEmissions_fst s response).2] at h1
    rw [ht] at h1
    exact Bool.noConfusion h1

/-- Witness for C7 (amended) at concrete inputs: on the closed and
disconnecting session the reply with text still produces emissions, and the
transcript callback still calls the bot. -/
theorem c7_stale_completions_witness :
    (Session.dtmfOnBotResponse sessionA replyEnd).2 ≠ []
    ∧ Session.asrOnFinalTranscript
        { sessionA with closed := true, disconnecting := true } "hi"
      = ({ sessionA with closed := true, disconnecting := true },
          [Effect.callBot "hi"]) := by
  have h := c7_stale_completions_not_discarded sessionA replyEnd "hi" "42"
  exact ⟨h.2.2.2.2 (by decide), h.2.2.2.1 (by decide)⟩

/-- Claim C10: while isCapturingDTMF is true, a completion from a previously
live speech engine is silently ignored — the ASR error callback does not
send a disconnect and the ASR final-transcript callback does not invoke the
bot gateway or emit anything; both return immediately with the session
unchanged. -/
theorem c10_asr_callbacks_ignored_during_dtmf (s : Session) (transcriptText : String)
    (h : s.isCapturingDTMF = true) :
    Session.asrOnError s = (s, [])
    ∧ Session.asrOnFinalTranscript s transcriptText = (s, []) := by
  unfold Session.asrOnError Session.asrOnFinalTranscript
  rw [if_pos h, if_pos h]
  exact ⟨rfl, rfl⟩

/-- Witness for C10 on a concrete capturing session. -/
theorem c10_asr_callbacks_ignored_witness :
    Session.asrOnError { sessionA with isCapturingDTMF := true }
      = ({ sessionA with isCapturingDTMF := true }, [])
    ∧ Session.asrOnFinalTranscript { sessionA with isCapturingDTMF := true } "hello"
      = ({ sessionA with isCapturingDTMF := true }, []) :=
  c10_asr_callbacks_ignored_during_dtmf
    { sessionA with isCapturingDTMF := true } "hello" (by decide)

end AudioConnector
